import Mathlib

/-!
Shallow embedding of the StreamCastExtension sender page script
(`castVideoPlayer.js`).  The script defines a `CastPlayer` object holding the
device / player state machine, a progress timer, progress-bar rendering, and
two page-scraping media-source heuristics.

Modelling conventions:
* JS numbers are modelled as `ℚ` (exact arithmetic; no claim here depends on
  float rounding).  `Math.ceil` / `Math.floor` are `Int.ceil` / `Int.floor`;
  `parseInt` applied to a number truncates toward zero (`jsTrunc`).
* DOM style properties `progress.style.width` and
  `progress_indicator.style.marginLeft` are modelled as `Option ℤ` fields of
  the state (`none` = no valid numeric inline style, e.g. unset or a rejected
  `NaN`/`undefined` assignment).  Unit suffixes and CSS validity are
  abstracted to numeric writes.
* The progress interval timer is modelled by a `Bool` field `timer`: `true`
  iff an interval is currently scheduled.  `setInterval` sets it,
  `clearInterval` clears it (the JS handle value itself carries no more
  information relevant to the claims).
* A JS `TypeError` from dereferencing a `null` handle makes the operation
  return `none` (the handler aborts; no claim below relies on the partial
  writes a real exception would leave behind).
* Purely visual calls (`updateMediaControlUI`, `enableElement`,
  `console.log`, innerHTML updates) read state but write none of the
  modelled fields and are omitted.
* External inputs (the cast SDK session objects, receiver status pushes,
  `jwplayer()` playlist data, scraped page DOM) are parameters of the
  operations, mirroring exactly the fields the source reads from them.
-/

/-- Width of progress bar in pixel (`PROGRESS_BAR_WIDTH = 600`). -/
def PROGRESS_BAR_WIDTH : ℤ := 600

/-- The max attempts count for timers (`MAX_ATTEMPT_COUNT = 5`). -/
def MAX_ATTEMPT_COUNT : ℤ := 5

/-- Constants of states for the Chromecast device (`DEVICE_STATE`). -/
inductive DEVICE_STATE where
  | IDLE
  | ACTIVE
  | WARNING
  | ERROR
  deriving Repr, DecidableEq

/-- Constants of states for `CastPlayer` (`PLAYER_STATE`). -/
inductive PLAYER_STATE where
  | IDLE
  | LOADING
  | LOADED
  | PLAYING
  | PAUSED
  | STOPPED
  | SEEKING
  | ERROR
  deriving Repr, DecidableEq

/-- The media descriptor built by the source heuristics
(`this.mediaContent`, a JS array used as a string-keyed record).
`title` is `Option` because `findCloudPlayerSource` can store `undefined`
when the page-title scrape fails. -/
structure MediaDescriptor where
  title : Option String
  source : String
  thumb : String
  subtitle : String
  deriving Repr, DecidableEq

/-- The cast session handle (`this.session`); only its identity matters. -/
structure Session where
  sessionId : String
  deriving Repr, DecidableEq

/-- The fields of `chrome.cast.media.Media` read by the script:
`media.duration` via `this.currentMediaSession.media.duration`. -/
structure MediaInfo where
  duration : ℚ
  deriving Repr, DecidableEq

/-- The media session handle (`this.currentMediaSession`). -/
structure MediaSession where
  media : MediaInfo
  deriving Repr, DecidableEq

/-- The `CastPlayer` instance state: the fields assigned in the constructor,
plus the two DOM style properties the progress logic reads back
(`progress.style.width`, `progress_indicator.style.marginLeft`). -/
structure CastPlayer where
  deviceState : DEVICE_STATE
  currentMediaSession : Option MediaSession
  currentVolume : ℚ
  autoplay : Bool
  session : Option Session
  castPlayerState : PLAYER_STATE
  audio : Bool
  mediaContent : Option MediaDescriptor
  currentMediaTime : ℚ
  currentMediaDuration : ℚ
  timer : Bool
  progressFlag : Bool
  progressWidth : Option ℤ
  indicatorMargin : Option ℤ
  deriving Repr, DecidableEq

/-- The state set up by the `CastPlayer` constructor.  The inline styles of
the progress elements start unset (`none`). -/
def initState : CastPlayer where
  deviceState := DEVICE_STATE.IDLE
  currentMediaSession := none
  currentVolume := 1/2
  autoplay := true
  session := none
  castPlayerState := PLAYER_STATE.IDLE
  audio := true
  mediaContent := none
  currentMediaTime := 0
  currentMediaDuration := -1
  timer := false
  progressFlag := true
  progressWidth := none
  indicatorMargin := none

/-- JS `parseInt` applied to an ordinary finite number: the decimal string is
parsed up to the dot, i.e. truncation toward zero. -/
def jsTrunc (q : ℚ) : ℤ := if 0 ≤ q then Int.floor q else Int.ceil q

/-- Remote commands issued through the cast SDK, in issue order. -/
inductive RemoteCmd where
  | requestSession
  | load
  | play
  | pause
  | stop
  | seek (target : ℚ)
  | setVolume (level : ℚ)
  | setMuted
  deriving Repr, DecidableEq

/-- Argument delivered to `onMediaStatusUpdate` by the SDK: either the
boolean `false` (media no longer alive) or a receiver status object with the
fields the script reads (`idleReason`, `playerState`, `currentTime`). -/
inductive StatusArg where
  | isAliveFalse
  | push (idleReason : Option String) (playerState : String) (currentTime : ℚ)
  deriving Repr, DecidableEq

/-- The test `e.idleReason == 'FINISHED' && e.playerState == 'IDLE'` of
`updateProgressBar`; on the boolean `false` both property reads yield
`undefined`, so the test is false. -/
def isIdleFinished : StatusArg → Bool
  | StatusArg.push (some r) p _ => r == "FINISHED" && p == "IDLE"
  | _ => false

/-- `CastPlayer.prototype.startProgressTimer`: clears any prior interval and
starts a fresh one (callback `incrementMediaTime`, step 1000 ms). -/
def startProgressTimer (s : CastPlayer) : CastPlayer :=
  { s with timer := true }

/-- `CastPlayer.prototype.updateProgressBarByTimer`.  `pp` is `undefined`
(`none`) when `currentMediaDuration <= 0`; writing an `undefined`/`NaN`
pixel value to a style property is discarded, and `undefined > 600` is
false. -/
def updateProgressBarByTimer (s : CastPlayer) : CastPlayer :=
  let s := if s.progressWidth = none then { s with progressWidth := some 0 } else s
  let pp : Option ℤ :=
    if 0 < s.currentMediaDuration then
      some (Int.floor ((PROGRESS_BAR_WIDTH : ℚ) * s.currentMediaTime / s.currentMediaDuration))
    else none
  let s :=
    if s.progressFlag then
      match pp with
      | some v => { s with progressWidth := some v,
                           indicatorMargin := some (-21 - PROGRESS_BAR_WIDTH + v) }
      | none => s
    else s
  match pp with
  | some v =>
      if PROGRESS_BAR_WIDTH < v then
        { s with timer := false, deviceState := DEVICE_STATE.IDLE,
                 castPlayerState := PLAYER_STATE.IDLE }
      else s
  | none => s

/-- `CastPlayer.prototype.incrementMediaTime`.  `this.localPlayerState` is
never assigned anywhere in the script, so the disjunct
`localPlayerState == PLAYING` is always false. -/
def incrementMediaTime (s : CastPlayer) : CastPlayer :=
  if s.castPlayerState = PLAYER_STATE.PLAYING then
    if s.currentMediaTime < s.currentMediaDuration then
      updateProgressBarByTimer { s with currentMediaTime := s.currentMediaTime + 1 }
    else
      { s with currentMediaTime := 0, timer := false }
  else s

/-- `CastPlayer.prototype.updateProgressBar`.  The non-finished branch reads
`this.currentMediaSession.media.duration`, throwing when the handle is
`null`; on the boolean-`false` argument `e.currentTime` is `undefined`, the
computed widths are `NaN`, and the style writes are discarded. -/
def updateProgressBar (e : StatusArg) (s : CastPlayer) : Option CastPlayer :=
  if isIdleFinished e then
    some { s with progressWidth := some 0,
                  indicatorMargin := some (-21 - PROGRESS_BAR_WIDTH),
                  timer := false,
                  castPlayerState := PLAYER_STATE.STOPPED }
  else
    match s.currentMediaSession with
    | none => none
    | some ms =>
      match e with
      | StatusArg.push _ _ ct =>
        let w : ℤ := Int.ceil ((PROGRESS_BAR_WIDTH : ℚ) * ct / ms.media.duration + 1)
        let pp : ℤ := Int.ceil ((PROGRESS_BAR_WIDTH : ℚ) * ct / ms.media.duration)
        some { s with progressWidth := some w,
                      progressFlag := false,
                      indicatorMargin := some (-21 - PROGRESS_BAR_WIDTH + pp) }
      | StatusArg.isAliveFalse =>
        some { s with progressFlag := false }

/-- `CastPlayer.prototype.setProgressFlag` (fires 1000 ms after a status
push). -/
def setProgressFlag (s : CastPlayer) : CastPlayer :=
  { s with progressFlag := true }

/-- `CastPlayer.prototype.onMediaStatusUpdate`.  `e == false` only holds for
the boolean `false`; a status object never loosely equals `false`. -/
def onMediaStatusUpdate (e : StatusArg) (s : CastPlayer) : Option CastPlayer :=
  let s :=
    match e with
    | StatusArg.isAliveFalse =>
        { s with currentMediaTime := 0, castPlayerState := PLAYER_STATE.IDLE }
    | _ => s
  updateProgressBar e s

/-- `CastPlayer.prototype.loadMedia`: no session means an early return with
no effect; otherwise `this.mediaContent['title']` is read (throwing on a
`null` descriptor), the state becomes LOADING, and a load request is
issued. -/
def loadMedia (s : CastPlayer) : Option (CastPlayer × List RemoteCmd) :=
  match s.session with
  | none => some (s, [])
  | some _ =>
    match s.mediaContent with
    | none => none
    | some _ =>
      some ({ s with castPlayerState := PLAYER_STATE.LOADING }, [RemoteCmd.load])

/-- How `onMediaDiscovered` was reached: from a `loadMedia` success, or from
`sessionListener` auto-join (which passes along the active session media's
reported `playerState` and `currentTime`). -/
inductive DiscoverHow where
  | loadMediaHow
  | activeSessionHow (reportedState : PLAYER_STATE) (reportedTime : ℚ)
  deriving Repr, DecidableEq

/-- `CastPlayer.prototype.onMediaDiscovered`: stores the new media session
handle, resolves the new player state, starts the progress timer when that
state is PLAYING, and adopts the media's duration.  The duration pretty
printing into the `duration` element is visual only. -/
def onMediaDiscovered (how : DiscoverHow) (ms : MediaSession) (s : CastPlayer) : CastPlayer :=
  let s := { s with currentMediaSession := some ms }
  let s :=
    match how with
    | DiscoverHow.loadMediaHow =>
        if s.autoplay then { s with castPlayerState := PLAYER_STATE.PLAYING }
        else { s with castPlayerState := PLAYER_STATE.LOADED }
    | DiscoverHow.activeSessionHow ps ct =>
        { s with castPlayerState := ps, currentMediaTime := ct }
  let s :=
    if s.castPlayerState = PLAYER_STATE.PLAYING then startProgressTimer s else s
  { s with currentMediaDuration := ms.media.duration }

/-- `CastPlayer.prototype.onLoadMediaError`. -/
def onLoadMediaError (s : CastPlayer) : CastPlayer :=
  { s with castPlayerState := PLAYER_STATE.IDLE }

/-- `CastPlayer.prototype.playMedia`.  IDLE returns early.  From LOADED or
PAUSED a remote play is issued (dereferencing the media session handle), the
state becomes PLAYING and the progress timer is started.  From LOADING or
STOPPED, `loadMedia()` runs, the media session handle is dereferenced for
`addUpdateListener`, and the state becomes PLAYING; no timer is started on
this path.  Other states fall through the switch. -/
def playMedia (s : CastPlayer) : Option (CastPlayer × List RemoteCmd) :=
  if s.castPlayerState = PLAYER_STATE.IDLE then some (s, [])
  else
    match s.castPlayerState with
    | PLAYER_STATE.LOADED | PLAYER_STATE.PAUSED =>
      match s.currentMediaSession with
      | none => none
      | some _ =>
        some (startProgressTimer { s with castPlayerState := PLAYER_STATE.PLAYING },
              [RemoteCmd.play])
    | PLAYER_STATE.LOADING | PLAYER_STATE.STOPPED =>
      (loadMedia s).bind fun p =>
        match p.1.currentMediaSession with
        | none => none
        | some _ =>
          some ({ p.1 with castPlayerState := PLAYER_STATE.PLAYING }, p.2)
    | _ => some (s, [])

/-- `CastPlayer.prototype.pauseMedia`: guarded on PLAYING; sets PAUSED,
issues a remote pause (dereferencing the media session handle) and clears
the interval, all within the one handler. -/
def pauseMedia (s : CastPlayer) : Option (CastPlayer × List RemoteCmd) :=
  if s.castPlayerState = PLAYER_STATE.PLAYING then
    match s.currentMediaSession with
    | none => none
    | some _ =>
      some ({ s with castPlayerState := PLAYER_STATE.PAUSED, timer := false },
            [RemoteCmd.pause])
  else some (s, [])

/-- `CastPlayer.prototype.stopMedia`: no state guard at all; dereferences
the media session handle (throwing when it is `null`), issues a remote stop,
sets STOPPED and clears the interval. -/
def stopMedia (s : CastPlayer) : Option (CastPlayer × List RemoteCmd) :=
  match s.currentMediaSession with
  | none => none
  | some _ =>
    some ({ s with castPlayerState := PLAYER_STATE.STOPPED, timer := false },
          [RemoteCmd.stop])

/-- The seek-target computation of `seekMedia` for clicks on the progress
bar or its background:
`parseInt(pos * this.currentMediaDuration / PROGRESS_BAR_WIDTH)`. -/
def seekTargetTime (pos : ℤ) (duration : ℚ) : ℤ :=
  jsTrunc ((pos : ℚ) * duration / (PROGRESS_BAR_WIDTH : ℚ))

/-- `CastPlayer.prototype.seekMedia`.  `onIndicator` distinguishes the
`progress_indicator` drag branch from the bar/background click branch.
Style writes happen only while PLAYING or PAUSED; every other state returns
before any state field changes.  Writing a `NaN` style value (from an unset
style read back through `parseInt`) is discarded. -/
def seekMedia (onIndicator : Bool) (offsetX : ℚ) (s : CastPlayer) :
    Option (CastPlayer × List RemoteCmd) :=
  let pos : ℤ := jsTrunc offsetX
  let curr : ℤ :=
    if onIndicator then
      jsTrunc (s.currentMediaTime + s.currentMediaDuration * (pos : ℚ) / (PROGRESS_BAR_WIDTH : ℚ))
    else seekTargetTime pos s.currentMediaDuration
  let pp : Option ℤ :=
    if onIndicator then s.indicatorMargin.map (· + pos)
    else some (pos - 21 - PROGRESS_BAR_WIDTH)
  let pw : Option ℤ :=
    if onIndicator then s.progressWidth.map (· + pos)
    else some pos
  if s.castPlayerState = PLAYER_STATE.PLAYING ∨ s.castPlayerState = PLAYER_STATE.PAUSED then
    let s1 := { s with
      progressWidth := match pw with | some v => some v | none => s.progressWidth,
      indicatorMargin := match pp with | some v => some v | none => s.indicatorMargin }
    match s1.currentMediaSession with
    | none => none
    | some _ =>
      some ({ s1 with currentMediaTime := (curr : ℚ),
                      castPlayerState := PLAYER_STATE.SEEKING },
            [RemoteCmd.seek (curr : ℚ)])
  else some (s, [])

/-- `CastPlayer.prototype.onSeekSuccess`. -/
def onSeekSuccess (s : CastPlayer) : CastPlayer :=
  { s with castPlayerState := PLAYER_STATE.PLAYING }

/-- `CastPlayer.prototype.setReceiverVolume`.  The function reads the
ambient global `event`: the click target id and the pointer `offsetY` are
therefore inputs of the model.  When the click target is the volume track
or level, `currentVolume` is set from `parseInt(event.offsetY)` (offsets of
100 or more set it to 1); the `audio_bg_level` height write is visual only.
Then a remote volume-level or mute command is issued through
`this.session`, throwing when the session is `null`.  There is no player
state guard. -/
def setReceiverVolume (currentTargetId : String) (offsetY : ℚ) (mute : Bool)
    (s : CastPlayer) : Option (CastPlayer × List RemoteCmd) :=
  let pos : ℤ := jsTrunc offsetY
  let s :=
    if currentTargetId == "audio_bg_track" || currentTargetId == "audio_bg_level" then
      if pos < 100 then { s with currentVolume := (pos : ℚ) / 100 }
      else { s with currentVolume := 1 }
    else s
  match s.session with
  | none => none
  | some _ =>
    if !mute then some (s, [RemoteCmd.setVolume s.currentVolume])
    else some (s, [RemoteCmd.setMuted])

/-- `CastPlayer.prototype.muteMedia`: with no player state guard it toggles
the state field `this.audio` (the speaker icon swaps are visual only);
when a media session handle is present it forwards to `setReceiverVolume`
with the mute flag, passing along the ambient click event (for the
registered `audio_on`/`audio_off` click targets the volume-from-offset
branch of `setReceiverVolume` is skipped). -/
def muteMedia (currentTargetId : String) (offsetY : ℚ) (s : CastPlayer) :
    Option (CastPlayer × List RemoteCmd) :=
  if s.audio then
    let s := { s with audio := false }
    match s.currentMediaSession with
    | none => some (s, [])
    | some _ => setReceiverVolume currentTargetId offsetY true s
  else
    let s := { s with audio := true }
    match s.currentMediaSession with
    | none => some (s, [])
    | some _ => setReceiverVolume currentTargetId offsetY false s

/-- `CastPlayer.prototype.launchApp`: issues the session request, then
clears any running interval. -/
def launchApp (s : CastPlayer) : CastPlayer × List RemoteCmd :=
  ({ s with timer := false }, [RemoteCmd.requestSession])

/-- `CastPlayer.prototype.onRequestSessionSuccess`: stores the session, sets
the device ACTIVE and runs `loadMedia()`. -/
def onRequestSessionSuccess (e : Session) (s : CastPlayer) :
    Option (CastPlayer × List RemoteCmd) :=
  loadMedia { s with session := some e, deviceState := DEVICE_STATE.ACTIVE }

/-- `CastPlayer.prototype.onLaunchError`. -/
def onLaunchError (s : CastPlayer) : CastPlayer :=
  { s with deviceState := DEVICE_STATE.ERROR }

/-- `CastPlayer.prototype.resetProgressAndDuration`: zeroes the media time
and duration and resets the progress bar styles. -/
def resetProgressAndDuration (s : CastPlayer) : CastPlayer :=
  { s with currentMediaTime := 0, currentMediaDuration := 0,
           progressWidth := some 0,
           indicatorMargin := some (-21 - PROGRESS_BAR_WIDTH) }

/-- `CastPlayer.prototype.onStopAppSuccess`: device IDLE, player IDLE, media
session handle cleared, interval cleared, progress and duration reset.
`this.session` is not assigned here. -/
def onStopAppSuccess (s : CastPlayer) : CastPlayer :=
  resetProgressAndDuration
    { s with deviceState := DEVICE_STATE.IDLE,
             castPlayerState := PLAYER_STATE.IDLE,
             currentMediaSession := none,
             timer := false }

/-- The fields of a `jwplayer().getPlaylist()[0]` entry read by
`findCloudPlayerSource`; `title` is `Option` because the source tests
`media.title != undefined`. -/
structure JwMedia where
  title : Option String
  file : String
  image : String
  deriving Repr, DecidableEq

/-- The in-page `jwplayer` environment probed by `findCloudPlayerSource`:
whether the global is defined, whether `getPlaylist` is defined and returns
a defined value, and the first playlist entry (if any). -/
structure CloudEnv where
  jwplayerDefined : Bool
  playlistReady : Bool
  media0 : Option JwMedia
  deriving Repr, DecidableEq

/-- The page DOM facts read by `findCloudPlayerSource`: the result of the
`grepTitleFromStreamCloudPage` scrape and `window.location.host`. -/
structure PageEnv where
  streamCloudTitle : Option String
  host : String
  deriving Repr, DecidableEq

/-- `findCloudPlayerSource(attemptCount)`.  Returns the updated state and,
when a retry is rescheduled via `setTimeout`, the `attemptCount` value that
the scheduled invocation will receive.  The closure passes
`attemptCount++`, i.e. the post-increment hands the *old* value to the
retry; the incremented local dies with the invocation.  A missing argument
(`undefined`/`null`) normalizes to 0. -/
def findCloudPlayerSource (env : CloudEnv) (page : PageEnv)
    (attemptCount : Option ℤ) (s : CastPlayer) : CastPlayer × Option ℤ :=
  if s.mediaContent.isSome then (s, none)
  else
    let a : ℤ := attemptCount.getD 0
    if ¬ env.jwplayerDefined then
      (s, if a ≤ MAX_ATTEMPT_COUNT then some a else none)
    else if ¬ env.playlistReady then
      (s, if a ≤ MAX_ATTEMPT_COUNT then some a else none)
    else
      match env.media0 with
      | none => (s, none)
      | some media =>
        let title : Option String :=
          match media.title with
          | some t => some t
          | none => page.streamCloudTitle
        let src : String :=
          if media.file.startsWith "http" then media.file
          else "http://" ++ page.host ++ media.file
        ({ s with mediaContent := some ⟨title, src, media.image, ""⟩ }, none)

/-- The page DOM facts read by `findbitShareSource`: presence of the
`stream_flash` element, the number of its script children, the second
script's text, and the capture groups of the regular expression
`url: '(.*)(.avi)'` applied to that text (a successful match of this
two-group pattern always has length 3, so the `match.length < 3` test never
fires on a successful match). -/
structure BitshareEnv where
  streamFlashPresent : Bool
  scriptCount : ℕ
  playerScript : String
  urlMatch : Option (String × String)
  deriving Repr, DecidableEq

/-- `findbitShareSource`. -/
def findbitShareSource (env : BitshareEnv) (s : CastPlayer) : CastPlayer :=
  if s.mediaContent.isSome then s
  else if ¬ env.streamFlashPresent then s
  else if env.scriptCount < 2 then s
  else if env.playerScript.length < 1 then s
  else
    match env.urlMatch with
    | none => s
    | some (m1, m2) =>
      { s with mediaContent := some ⟨some "Unknown", m1 ++ m2, "", ""⟩ }

/-- `CastPlayer.prototype.searchVideoSource`: iterates
`resourceSearchFunctions = [findCloudPlayerSource, findbitShareSource]`,
breaking out of the loop before any call once `mediaContent` is set; each
function is called with no `attemptCount` argument. -/
def searchVideoSource (cenv : CloudEnv) (page : PageEnv) (benv : BitshareEnv)
    (s : CastPlayer) : CastPlayer :=
  let s1 := if s.mediaContent.isSome then s else (findCloudPlayerSource cenv page none s).1
  if s1.mediaContent.isSome then s1 else findbitShareSource benv s1

/-- Events of the single-threaded event loop: user gestures, SDK callbacks,
timer and timeout firings, and heuristic invocations (carrying the external
page data they read). -/
inductive Event where
  | bitshareRun (env : BitshareEnv)
  | cloudRun (env : CloudEnv) (page : PageEnv) (attemptCount : Option ℤ)
  | sessionSuccess (e : Session)
  | launchErrorE
  | stopAppSuccessE
  | mediaDiscovered (how : DiscoverHow) (ms : MediaSession)
  | loadMediaErrorE
  | statusUpdate (e : StatusArg)
  | timerTick
  | progressFlagTimeout
  | userPlay
  | userPause
  | userStop
  | userSeek (onIndicator : Bool) (offsetX : ℚ)
  | userMute (currentTargetId : String) (offsetY : ℚ)
  | seekSuccessE
  | userLaunch
  deriving Repr

/-- One event-loop turn: dispatches an event to the handler the script
installs for it.  A `timerTick` only has an effect while an interval is
scheduled.  Handlers that throw a `TypeError` yield `none`. -/
def step : Event → CastPlayer → Option (CastPlayer × List RemoteCmd)
  | Event.bitshareRun env, s => some (findbitShareSource env s, [])
  | Event.cloudRun env page a, s => some ((findCloudPlayerSource env page a s).1, [])
  | Event.sessionSuccess e, s => onRequestSessionSuccess e s
  | Event.launchErrorE, s => some (onLaunchError s, [])
  | Event.stopAppSuccessE, s => some (onStopAppSuccess s, [])
  | Event.mediaDiscovered how ms, s => some (onMediaDiscovered how ms s, [])
  | Event.loadMediaErrorE, s => some (onLoadMediaError s, [])
  | Event.statusUpdate e, s => (onMediaStatusUpdate e s).map (fun s1 => (s1, []))
  | Event.timerTick, s => some (if s.timer then incrementMediaTime s else s, [])
  | Event.progressFlagTimeout, s => some (setProgressFlag s, [])
  | Event.userPlay, s => playMedia s
  | Event.userPause, s => pauseMedia s
  | Event.userStop, s => stopMedia s
  | Event.userSeek b off, s => seekMedia b off s
  | Event.userMute tid off, s => muteMedia tid off s
  | Event.seekSuccessE, s => some (onSeekSuccess s, [])
  | Event.userLaunch, s => some (launchApp s)

/-- Runs a sequence of event-loop turns, propagating a thrown `TypeError`
as `none`. -/
def runTrace (evs : List Event) (s : CastPlayer) : Option CastPlayer :=
  match evs with
  | [] => some s
  | ev :: rest => (step ev s).bind fun p => runTrace rest p.1

/-- The chain of `findCloudPlayerSource` invocations produced by its
`setTimeout` self-rescheduling while the page state `env`/`page` and the
player state `s` stay fixed: element `n` is `some arg` when an `n`-th
invocation occurs and receives `arg` as its `attemptCount` (the initial
invocation, `n = 0`, is called with no argument). -/
def cloudRetrySeq (env : CloudEnv) (page : PageEnv) (s : CastPlayer) :
    ℕ → Option (Option ℤ)
  | 0 => some none
  | n + 1 =>
    (cloudRetrySeq env page s n).bind fun arg =>
      ((findCloudPlayerSource env page arg s).2).map some

/-! Concrete fixtures used by witnesses and counterexamples. -/

/-- A bitshare page on which `findbitShareSource` succeeds. -/
def benvA : BitshareEnv := ⟨true, 2, "x", some ("http://h/v", ".avi")⟩

/-- A media session whose media reports a 120 second duration. -/
def ms120 : MediaSession := ⟨⟨120⟩⟩

/-- A cast session handle. -/
def sessA : Session := ⟨"s1"⟩

/-- A `jwplayer` environment in which the global is never defined. -/
def cloudEnvNoJw : CloudEnv := ⟨false, false, none⟩

/-- A page environment for the cloud-player heuristic. -/
def pageA : PageEnv := ⟨none, "h"⟩

/-- Helper: JS `parseInt` of an integer-valued number is that integer. -/
theorem jsTrunc_intCast (n : ℤ) : jsTrunc (n : ℚ) = n := by
  unfold jsTrunc
  by_cases h : (0 : ℚ) ≤ (n : ℚ)
  · rw [if_pos h, Int.floor_intCast]
  · rw [if_neg h, Int.ceil_intCast]

/-- Helper: JS `parseInt` of a natural-valued number is that natural. -/
theorem jsTrunc_natCast (n : ℕ) : jsTrunc (n : ℚ) = n := by
  unfold jsTrunc
  rw [if_pos (by positivity), Int.floor_natCast]

/-- C1 (counterexample input): a real execution — the bitshare heuristic
finds the media, the user clicks the cast icon, the session is granted
(triggering a load),
the load succeeds with autoplay (PLAYING, timer running), the user stops
playback (STOPPED, timer cleared), and then presses play again. -/
def c1trace : List Event :=
  [Event.bitshareRun benvA, Event.userLaunch, Event.sessionSuccess sessA,
   Event.mediaDiscovered DiscoverHow.loadMediaHow ms120,
   Event.userStop, Event.userPlay]

/-- C1 (counterexample): after the transition sequence `c1trace`,
`castPlayerState` is PLAYING while no progress timer is running —
`playMedia` from STOPPED sets PLAYING without starting the timer, so the
claimed invariant "PLAYING implies the timer is running" fails on a
reachable state. -/
theorem c1_counterexample :
    (runTrace c1trace initState).map (fun s => (s.castPlayerState, s.timer))
      = some (PLAYER_STATE.PLAYING, false) := rfl

/-- C1 (amended): the transitions out of PLAYING through `pauseMedia`,
`stopMedia` and the FINISHED/IDLE status push clear the progress timer
atomically with the state change, and `playMedia` from LOADED or PAUSED
starts the timer atomically with entering PLAYING; the full invariant
"PLAYING iff timer running over every transition sequence" does not hold
(see the counterexample: `playMedia` from STOPPED enters PLAYING without a
timer). -/
theorem c1_amended (s : CastPlayer) :
    (s.castPlayerState = PLAYER_STATE.PLAYING →
      s.currentMediaSession.isSome →
      (pauseMedia s).map (fun p => (p.1.castPlayerState, p.1.timer))
        = some (PLAYER_STATE.PAUSED, false)) ∧
    (s.currentMediaSession.isSome →
      (stopMedia s).map (fun p => (p.1.castPlayerState, p.1.timer))
        = some (PLAYER_STATE.STOPPED, false)) ∧
    (∀ t : ℚ,
      (onMediaStatusUpdate (StatusArg.push (some "FINISHED") "IDLE" t) s).map
          (fun s1 => (s1.castPlayerState, s1.timer))
        = some (PLAYER_STATE.STOPPED, false)) ∧
    ((s.castPlayerState = PLAYER_STATE.LOADED ∨ s.castPlayerState = PLAYER_STATE.PAUSED) →
      s.currentMediaSession.isSome →
      (playMedia s).map (fun p => (p.1.castPlayerState, p.1.timer))
        = some (PLAYER_STATE.PLAYING, true)) := by
  refine ⟨?_, ?_, ?_, ?_⟩
  · intro hst hms
    obtain ⟨m, hm⟩ := Option.isSome_iff_exists.mp hms
    simp [pauseMedia, hst, hm]
  · intro hms
    obtain ⟨m, hm⟩ := Option.isSome_iff_exists.mp hms
    simp [stopMedia, hm]
  · intro t
    simp [onMediaStatusUpdate, updateProgressBar, isIdleFinished]
  · intro hst hms
    obtain ⟨m, hm⟩ := Option.isSome_iff_exists.mp hms
    rcases hst with h | h <;> simp [playMedia, h, hm, startProgressTimer]

/-- C1 (witness state): PLAYING with a live media session and a running
timer. -/
def c1w : CastPlayer :=
  { initState with castPlayerState := PLAYER_STATE.PLAYING,
                   currentMediaSession := some ms120, timer := true }

/-- C1 (witness): pausing from the concrete PLAYING state yields PAUSED
with the timer cleared. -/
theorem c1_amended_witness :
    (pauseMedia c1w).map (fun p => (p.1.castPlayerState, p.1.timer))
      = some (PLAYER_STATE.PAUSED, false) :=
  (c1_amended c1w).1 rfl rfl

/-- C2 (counterexample input): PLAYING at media time 42 of 120 with the
timer running. -/
def c2s0 : CastPlayer :=
  { initState with castPlayerState := PLAYER_STATE.PLAYING, timer := true,
                   currentMediaTime := 42, currentMediaDuration := 120,
                   currentMediaSession := some ms120 }

/-- C2 (counterexample): a FINISHED/IDLE status push sets STOPPED, clears
the timer, and zeroes the displayed width — but `currentMediaTime` stays at
42, so the progress state is not reset to zero as claimed. -/
theorem c2_counterexample :
    (onMediaStatusUpdate (StatusArg.push (some "FINISHED") "IDLE" 120) c2s0).map
        (fun s => (s.castPlayerState, s.timer, s.progressWidth, s.currentMediaTime))
      = some (PLAYER_STATE.STOPPED, false, some 0, (42 : ℚ)) ∧ (42 : ℚ) ≠ 0 := by
  exact ⟨rfl, by norm_num⟩

/-- C2 (amended): for every prior state, a FINISHED/IDLE status push sets
`castPlayerState` to STOPPED, clears the progress timer and resets the
displayed progress bar (width 0, indicator at the origin); it leaves
`currentMediaTime` (and every other field) unchanged. -/
theorem c2_amended (s : CastPlayer) (t : ℚ) :
    onMediaStatusUpdate (StatusArg.push (some "FINISHED") "IDLE" t) s
      = some { s with progressWidth := some 0,
                      indicatorMargin := some (-21 - PROGRESS_BAR_WIDTH),
                      timer := false,
                      castPlayerState := PLAYER_STATE.STOPPED } := rfl

/-- C3 (spec-side formula, for refinement comparison only): the displayed
width as the claim states it — `round(totalWidthPx * currentTime /
duration)` clamped to `[0, totalWidthPx]`. -/
def spec_displayWidth (t d : ℚ) : ℤ :=
  max 0 (min PROGRESS_BAR_WIDTH (round ((PROGRESS_BAR_WIDTH : ℚ) * t / d)))

/-- C3 (counterexample input): PLAYING, media session with duration 120. -/
def c3s0 : CastPlayer :=
  { initState with castPlayerState := PLAYER_STATE.PLAYING,
                   currentMediaSession := some ms120,
                   currentMediaDuration := 120, timer := true }

/-- C3 (counterexample): at duration 120 a receiver push with currentTime
60 displays width 301 (the code computes `ceil(600*60/120 + 1)`), not the
claimed `round(600*60/120) = 300`. -/
theorem c3_counterexample :
    (onMediaStatusUpdate (StatusArg.push none "PLAYING" 60) c3s0).map
        (fun s => s.progressWidth) = some (some 301) ∧
    spec_displayWidth 60 120 = 300 ∧ (301 : ℤ) ≠ 300 := by
  refine ⟨?_, ?_, by norm_num⟩
  · have h : ((PROGRESS_BAR_WIDTH : ℚ) * 60 / (120 : ℚ) + 1) = ((301 : ℤ) : ℚ) := by
      norm_num [PROGRESS_BAR_WIDTH]
    simp [onMediaStatusUpdate, updateProgressBar, isIdleFinished, c3s0, ms120,
          initState, h, Int.ceil_intCast]
  · have h : ((PROGRESS_BAR_WIDTH : ℚ) * 60 / 120 + 1 / 2) = ((300 : ℤ) : ℚ) + 1 / 2 := by
      norm_num [PROGRESS_BAR_WIDTH]
    rw [spec_displayWidth, round_eq, h]
    norm_num [PROGRESS_BAR_WIDTH]

/-- C3 (amended): a non-FINISHED status push displays width
`ceil(totalWidthPx * currentTime / duration + 1)` — unclamped and with no
rounding to nearest — and a timer-computed width exceeding totalWidthPx
forces castPlayerState to IDLE, clears the interval and sets the device
IDLE. -/
theorem c3_amended :
    (∀ (s : CastPlayer) (ms : MediaSession) (r : Option String) (p : String) (t : ℚ),
        s.currentMediaSession = some ms →
        isIdleFinished (StatusArg.push r p t) = false →
        (onMediaStatusUpdate (StatusArg.push r p t) s).map (fun s1 => s1.progressWidth)
          = some (some (Int.ceil ((PROGRESS_BAR_WIDTH : ℚ) * t / ms.media.duration + 1)))) ∧
    (∀ s : CastPlayer, 0 < s.currentMediaDuration →
        PROGRESS_BAR_WIDTH <
          Int.floor ((PROGRESS_BAR_WIDTH : ℚ) * s.currentMediaTime / s.currentMediaDuration) →
        (updateProgressBarByTimer s).castPlayerState = PLAYER_STATE.IDLE ∧
        (updateProgressBarByTimer s).timer = false ∧
        (updateProgressBarByTimer s).deviceState = DEVICE_STATE.IDLE) := by
  constructor
  · intro s ms r p t hms hfin
    simp [onMediaStatusUpdate, updateProgressBar, hfin, hms]
  · intro s hd hgt
    rcases hpw : s.progressWidth with _ | w <;> rcases hpf : s.progressFlag <;>
      simp [updateProgressBarByTimer, hpw, hpf, hd, hgt]

/-- C3 (witness state for the timer part): media time far past the
duration, so the timer-computed width overflows the bar. -/
def c3w2 : CastPlayer :=
  { initState with currentMediaTime := 1000, currentMediaDuration := 120 }

/-- C3 (witness): the push formula at currentTime 60 / duration 120, and
the forced IDLE transition at an overflowing timer width. -/
theorem c3_amended_witness :
    (onMediaStatusUpdate (StatusArg.push none "PLAYING" 60) c3s0).map
        (fun s1 => s1.progressWidth)
      = some (some (Int.ceil ((PROGRESS_BAR_WIDTH : ℚ) * 60 / ms120.media.duration + 1))) ∧
    (updateProgressBarByTimer c3w2).castPlayerState = PLAYER_STATE.IDLE := by
  constructor
  · exact c3_amended.1 c3s0 ms120 none "PLAYING" 60 rfl rfl
  · refine (c3_amended.2 c3w2 (by norm_num [c3w2, initState]) ?_).1
    have h : (PROGRESS_BAR_WIDTH : ℚ) * c3w2.currentMediaTime / c3w2.currentMediaDuration
        = ((5000 : ℤ) : ℚ) := by
      norm_num [PROGRESS_BAR_WIDTH, c3w2, initState]
    rw [h, Int.floor_intCast]
    norm_num [PROGRESS_BAR_WIDTH]

/-- C4 (counterexample input): an active session casting media. -/
def c4s0 : CastPlayer :=
  { initState with session := some sessA, deviceState := DEVICE_STATE.ACTIVE,
                   castPlayerState := PLAYER_STATE.PLAYING,
                   currentMediaSession := some ms120, timer := true,
                   currentMediaTime := 42, currentMediaDuration := 120 }

/-- C4 (counterexample): after a successful session stop the Session handle
is still set — `onStopAppSuccess` never assigns `this.session`, so the
claimed "clears the Session handle" is false. -/
theorem c4_counterexample :
    (onStopAppSuccess c4s0).session = some sessA ∧
    (some sessA : Option Session) ≠ none := by
  exact ⟨rfl, by simp⟩

/-- C4 (amended): on successful session stop the controller resets
deviceState to IDLE, castPlayerState to IDLE, clears the media session
handle and the progress timer, and zeroes `currentMediaTime` and
`currentMediaDuration` (and the progress bar); the Session handle itself is
left unchanged. -/
theorem c4_amended (s : CastPlayer) :
    onStopAppSuccess s
      = { s with deviceState := DEVICE_STATE.IDLE,
                 castPlayerState := PLAYER_STATE.IDLE,
                 currentMediaSession := none, timer := false,
                 currentMediaTime := 0, currentMediaDuration := 0,
                 progressWidth := some 0,
                 indicatorMargin := some (-21 - PROGRESS_BAR_WIDTH) } ∧
    (onStopAppSuccess s).session = s.session :=
  ⟨rfl, rfl⟩

/-- C5 (counterexample input): IDLE, but with a stale media session handle
(reachable, e.g. after a load error or a dead-media status update). -/
def c5s0 : CastPlayer := { initState with currentMediaSession := some ms120 }

/-- C5 (counterexample input): IDLE with both handles still set (reachable,
e.g. after a load error while the session stays up). -/
def c5s1 : CastPlayer :=
  { initState with currentMediaSession := some ms120, session := some sessA }

/-- C5 (counterexample): two of the listed transport commands issued while
IDLE are not no-ops.  `stopMedia` has no IDLE guard: it issues a remote
stop command and sets castPlayerState to STOPPED.  `muteMedia` has no IDLE
guard either: it flips the state field `audio` from true to false and, via
`setReceiverVolume`, issues a remote mute command. -/
theorem c5_counterexample :
    (c5s0.castPlayerState = PLAYER_STATE.IDLE ∧
      (stopMedia c5s0).map (fun p => (p.1.castPlayerState, p.2))
        = some (PLAYER_STATE.STOPPED, [RemoteCmd.stop])) ∧
    (c5s1.castPlayerState = PLAYER_STATE.IDLE ∧ c5s1.audio = true ∧
      (muteMedia "audio_on" 0 c5s1).map (fun p => (p.1.audio, p.2))
        = some (false, [RemoteCmd.setMuted])) :=
  ⟨⟨rfl, rfl⟩, rfl, rfl, rfl⟩

/-- C5 (amended): play, pause and seek commands issued while
castPlayerState is IDLE are no-ops (no remote command, no state change);
stop and mute/volume are not so guarded.  While IDLE, `stopMedia` issues a
remote stop and moves the state to STOPPED (see the counterexample), and
`muteMedia` always flips the `audio` flag and — when a media session handle
is present (here at the registered `audio_on`/`audio_off` click targets) —
issues a remote mute command (when the audio was on) or a remote
volume-level command at the unchanged `currentVolume` (when it was off)
through the live session. -/
theorem c5_amended (s : CastPlayer) (h : s.castPlayerState = PLAYER_STATE.IDLE) :
    (playMedia s = some (s, []) ∧ pauseMedia s = some (s, []) ∧
      ∀ (b : Bool) (off : ℚ), seekMedia b off s = some (s, [])) ∧
    (∀ (tid : String) (off : ℚ), s.currentMediaSession = none →
      muteMedia tid off s = some ({ s with audio := !s.audio }, [])) ∧
    (∀ off : ℚ, s.currentMediaSession.isSome → s.session.isSome →
      s.audio = true →
      muteMedia "audio_on" off s
        = some ({ s with audio := false }, [RemoteCmd.setMuted])) ∧
    (∀ off : ℚ, s.currentMediaSession.isSome → s.session.isSome →
      s.audio = false →
      muteMedia "audio_off" off s
        = some ({ s with audio := true }, [RemoteCmd.setVolume s.currentVolume])) := by
  refine ⟨⟨?_, ?_, ?_⟩, ?_, ?_, ?_⟩
  · simp [playMedia, h]
  · simp [pauseMedia, h]
  · intro b off
    simp [seekMedia, h]
  · intro tid off hcm
    rcases ha : s.audio <;> simp [muteMedia, hcm, ha]
  · intro off hcm hsess ha
    obtain ⟨m, hm⟩ := Option.isSome_iff_exists.mp hcm
    obtain ⟨ss, hs⟩ := Option.isSome_iff_exists.mp hsess
    have htid : (("audio_on" == "audio_bg_track")
        || ("audio_on" == "audio_bg_level")) = false := rfl
    simp [muteMedia, setReceiverVolume, ha, hm, hs, htid]
  · intro off hcm hsess ha
    obtain ⟨m, hm⟩ := Option.isSome_iff_exists.mp hcm
    obtain ⟨ss, hs⟩ := Option.isSome_iff_exists.mp hsess
    have htid : (("audio_off" == "audio_bg_track")
        || ("audio_off" == "audio_bg_level")) = false := rfl
    simp [muteMedia, setReceiverVolume, ha, hm, hs, htid]

/-- C5 (witness): the play/pause/seek no-ops at the concrete initial (IDLE)
state, the audio toggle with no media session handle, and the remote mute
issued from the concrete IDLE state with live handles. -/
theorem c5_amended_witness :
    playMedia initState = some (initState, []) ∧
    pauseMedia initState = some (initState, []) ∧
    seekMedia false 0 initState = some (initState, []) ∧
    muteMedia "audio_on" 0 initState = some ({ initState with audio := false }, []) ∧
    muteMedia "audio_on" 0 c5s1 = some ({ c5s1 with audio := false }, [RemoteCmd.setMuted]) :=
  ⟨(c5_amended initState rfl).1.1, (c5_amended initState rfl).1.2.1,
   (c5_amended initState rfl).1.2.2 false 0,
   (c5_amended initState rfl).2.1 "audio_on" 0 rfl,
   (c5_amended c5s1 rfl).2.2.1 0 rfl rfl rfl⟩

/-- C6 (counterexample input): PLAYING at media time 42 with a live media
session of duration 120. -/
def c6s0 : CastPlayer :=
  { initState with castPlayerState := PLAYER_STATE.PLAYING,
                   currentMediaSession := some ms120, currentMediaTime := 42,
                   currentMediaDuration := 120, timer := true }

/-- C6 (counterexample): a receiver push reporting playerState PAUSED at
currentTime 10 leaves castPlayerState = PLAYING and currentMediaTime = 42 —
the handler neither mirrors the reported playerState nor adopts the
reported currentTime. -/
theorem c6_counterexample :
    (onMediaStatusUpdate (StatusArg.push none "PAUSED" 10) c6s0).map
        (fun s => (s.castPlayerState, s.currentMediaTime))
      = some (PLAYER_STATE.PLAYING, (42 : ℚ)) ∧
    PLAYER_STATE.PLAYING ≠ PLAYER_STATE.PAUSED ∧ (42 : ℚ) ≠ 10 := by
  refine ⟨rfl, by simp, by norm_num⟩

/-- C6 (amended): for every receiver status push other than idle/finished,
the handler redraws the progress bar from the receiver-reported currentTime
and starts the 1-second timer-suppression window (`progressFlag := false`);
it leaves `castPlayerState`, `currentMediaTime` and every other state field
unchanged. -/
theorem c6_amended (s : CastPlayer) (ms : MediaSession) (r : Option String)
    (p : String) (t : ℚ) (hms : s.currentMediaSession = some ms)
    (hfin : isIdleFinished (StatusArg.push r p t) = false) :
    onMediaStatusUpdate (StatusArg.push r p t) s
      = some { s with
          progressWidth :=
            some (Int.ceil ((PROGRESS_BAR_WIDTH : ℚ) * t / ms.media.duration + 1)),
          progressFlag := false,
          indicatorMargin :=
            some (-21 - PROGRESS_BAR_WIDTH
              + Int.ceil ((PROGRESS_BAR_WIDTH : ℚ) * t / ms.media.duration)) } := by
  simp [onMediaStatusUpdate, updateProgressBar, hfin, hms]

/-- C6 (witness): the amended behaviour at the concrete PLAYING state and
the concrete PAUSED/10 push. -/
theorem c6_amended_witness :
    onMediaStatusUpdate (StatusArg.push none "PAUSED" 10) c6s0
      = some { c6s0 with
          progressWidth :=
            some (Int.ceil ((PROGRESS_BAR_WIDTH : ℚ) * 10 / ms120.media.duration + 1)),
          progressFlag := false,
          indicatorMargin :=
            some (-21 - PROGRESS_BAR_WIDTH
              + Int.ceil ((PROGRESS_BAR_WIDTH : ℚ) * 10 / ms120.media.duration)) } :=
  c6_amended c6s0 ms120 none "PAUSED" 10 rfl rfl

/-- C7: while `jwplayer` never becomes defined, every invocation of
`findCloudPlayerSource` reschedules itself, and the rescheduled invocation
receives attemptCount 0 — the closure passes `attemptCount++`, whose value
is the count *before* the increment, so the counter never advances and the
`attemptCount <= MAX_ATTEMPT_COUNT` guard is true forever.  For every `n`
an `n`-th invocation occurs (with count 0 from the first retry on): the
retries are unbounded, contradicting the claimed bound by the maximum
attempt count.  The guard and the doc comment of `MAX_ATTEMPT_COUNT` show
the bound is the code's own intent, so this is a bug in the code. -/
theorem c7_unbounded_retry (n : ℕ) :
    cloudRetrySeq cloudEnvNoJw pageA initState n
      = some (if n = 0 then none else some 0) := by
  induction n with
  | zero => rfl
  | succ k ih =>
    rw [cloudRetrySeq, ih]
    cases k <;> rfl

/-- C8: first-writer-wins for the media descriptor — once `mediaContent` is
set by one heuristic, every invocation of either heuristic (and of the full
`searchVideoSource` loop) detects it at its entry check and is a no-op; the
descriptor is never overwritten. -/
theorem c8_first_writer_wins (cenv : CloudEnv) (page : PageEnv) (a : Option ℤ)
    (benv : BitshareEnv) (s : CastPlayer) (d : MediaDescriptor)
    (h : s.mediaContent = some d) :
    findCloudPlayerSource cenv page a s = (s, none) ∧
    findbitShareSource benv s = s ∧
    searchVideoSource cenv page benv s = s ∧
    (searchVideoSource cenv page benv s).mediaContent = some d := by
  have hs : s.mediaContent.isSome = true := by simp [h]
  refine ⟨?_, ?_, ?_, ?_⟩ <;>
    simp [findCloudPlayerSource, findbitShareSource, searchVideoSource, hs, h]

/-- C8 (witness input): a state in which the bitshare heuristic has already
written the descriptor. -/
def c8s0 : CastPlayer :=
  { initState with mediaContent := some ⟨some "Unknown", "http://h/v.avi", "", ""⟩ }

/-- C8 (witness): both heuristics and the search loop are no-ops on the
concrete descriptor-set state, and the descriptor survives. -/
theorem c8_first_writer_wins_witness :
    findCloudPlayerSource cloudEnvNoJw pageA none c8s0 = (c8s0, none) ∧
    findbitShareSource benvA c8s0 = c8s0 ∧
    (searchVideoSource cloudEnvNoJw pageA benvA c8s0).mediaContent
      = some ⟨some "Unknown", "http://h/v.avi", "", ""⟩ :=
  ⟨(c8_first_writer_wins cloudEnvNoJw pageA none benvA c8s0 _ rfl).1,
   (c8_first_writer_wins cloudEnvNoJw pageA none benvA c8s0 _ rfl).2.1,
   (c8_first_writer_wins cloudEnvNoJw pageA none benvA c8s0 _ rfl).2.2.2⟩

/-- C9 (counterexample): an offset of 1200 — at or beyond the 600 px bar —
maps to currentTime 240 for duration 120: twice the duration, not the
claimed clamp to the duration. -/
theorem c9_counterexample :
    PROGRESS_BAR_WIDTH ≤ (1200 : ℤ) ∧ seekTargetTime 1200 120 = 240 ∧
    (240 : ℤ) ≠ 120 := by
  refine ⟨by norm_num [PROGRESS_BAR_WIDTH], ?_, by norm_num⟩
  have h : ((1200 : ℤ) : ℚ) * 120 / ((PROGRESS_BAR_WIDTH : ℤ) : ℚ) = ((240 : ℤ) : ℚ) := by
    norm_num [PROGRESS_BAR_WIDTH]
  rw [seekTargetTime, h, jsTrunc_intCast]

/-- C9 (amended): the seek-target mapping is a pure linear function of the
click offset: offset 0 maps to 0, offset = bar width maps to the (truncated)
duration, and with a live media session no offset makes `seekMedia` throw;
the mapping is unclamped, so offsets beyond the bar width map proportionally
beyond the duration (1200 maps to 240 at duration 120). -/
theorem c9_amended :
    (∀ d : ℚ, seekTargetTime 0 d = 0) ∧
    (∀ n : ℕ, seekTargetTime PROGRESS_BAR_WIDTH (n : ℚ) = n) ∧
    (∀ (s : CastPlayer) (b : Bool) (off : ℚ),
        s.currentMediaSession.isSome → (seekMedia b off s).isSome) ∧
    seekTargetTime 1200 120 = 240 := by
  refine ⟨?_, ?_, ?_, ?_⟩
  · intro d
    simp [seekTargetTime, jsTrunc]
  · intro n
    have h : ((PROGRESS_BAR_WIDTH : ℤ) : ℚ) * (n : ℚ) / ((PROGRESS_BAR_WIDTH : ℤ) : ℚ)
        = (n : ℚ) :=
      mul_div_cancel_left₀ (n : ℚ) (by norm_num [PROGRESS_BAR_WIDTH])
    rw [seekTargetTime, h, jsTrunc_natCast]
  · intro s b off hms
    obtain ⟨m, hm⟩ := Option.isSome_iff_exists.mp hms
    by_cases hc : s.castPlayerState = PLAYER_STATE.PLAYING ∨
        s.castPlayerState = PLAYER_STATE.PAUSED
    · simp [seekMedia, hc, hm]
    · simp [seekMedia, hc]
  · have h : ((1200 : ℤ) : ℚ) * 120 / ((PROGRESS_BAR_WIDTH : ℤ) : ℚ) = ((240 : ℤ) : ℚ) := by
      norm_num [PROGRESS_BAR_WIDTH]
    rw [seekTargetTime, h, jsTrunc_intCast]

/-- C9 (witness input): a state with a live media session. -/
def c9w0 : CastPlayer := { initState with currentMediaSession := some ms120 }

/-- C9 (witness): the boundary values and the no-throw fact at concrete
inputs. -/
theorem c9_amended_witness :
    seekTargetTime 0 (120 : ℚ) = 0 ∧
    seekTargetTime PROGRESS_BAR_WIDTH ((7 : ℕ) : ℚ) = 7 ∧
    (seekMedia false 0 c9w0).isSome :=
  ⟨c9_amended.1 120, c9_amended.2.1 7, c9_amended.2.2.1 c9w0 false 0 rfl⟩

/-- C10: `loadMedia` with no live session returns early: no remote command
is issued and no state field changes — in particular `castPlayerState` is
not set to LOADING. -/
theorem c10_loadMedia_no_session (s : CastPlayer) (h : s.session = none) :
    loadMedia s = some (s, []) := by
  simp [loadMedia, h]

/-- C10 (witness): the early return at the concrete initial state, which
has no session. -/
theorem c10_loadMedia_no_session_witness :
    initState.session = none ∧ loadMedia initState = some (initState, []) :=
  ⟨rfl, c10_loadMedia_no_session initState rfl⟩
